import Mathlib

/-!
Verification of the module timeseries_analytical_tools.py

A shallow embedding of the analytical helpers of the module and proofs about them.

Modelling conventions:
* Timestamps are integers ("ticks"); a `TimeSeries` carries its entries as a
  list of `(timestamp, value)` pairs together with the inferred frequency step
  `freq` (ticks per period), mirroring `data.index.freq`.
* Numeric values are rationals.
* The SARIMAX constructor-plus-`fit` call is an external statistical library;
  it is modelled as an oracle (`Fitter`) mapping the training slice, the
  order tuples and the two enforcement flags to either an exception payload
  (`Except.error`) or a `FitResult` holding the reported AIC and the predicted
  value of the model at every integer position.
* Pandas label slicing `data.loc[a:b]` is inclusive on both ends;
  `data[-n:]` takes the last `n` entries (the whole series when `n = 0`,
  as in Python); arithmetic between two series aligns on timestamps, with
  unmatched timestamps producing missing values that `.sum()` skips.
-/

namespace TimeseriesTools

/-- A time-indexed numeric series: `(timestamp, value)` pairs with the
inferred frequency step `freq` of its index (`data.index.freq`). -/
structure TimeSeries where
  entries : List (Int × ℚ)
  freq : Int
deriving Repr

/-- Pandas `data.index.max()`: the largest timestamp of the series
(`0` as a junk default on an empty index, where pandas would give `NaT`). -/
def indexMax (data : TimeSeries) : Int :=
  match data.entries.map Prod.fst with
  | [] => 0
  | t :: ts => ts.foldl max t

/-- Pandas `data.loc[startT:endT]`: label slicing of a sorted index is inclusive on
both ends; a `none` start bound (`data.loc[:endT]`, Python `None`) keeps
everything from the beginning. -/
def locSlice (data : TimeSeries) (startT : Option Int) (endT : Int) :
    List (Int × ℚ) :=
  data.entries.filter fun e =>
    (match startT with
     | none => true
     | some s => decide (s ≤ e.1)) && decide (e.1 ≤ endT)

/-- Python `l[-n:]`: the last `n` elements; for `n = 0` this is `l[0:]`,
i.e. the whole list. -/
def pythonTail (n : Nat) (l : List (Int × ℚ)) : List (Int × ℚ) :=
  if n = 0 then l else l.drop (l.length - n)

/-- The outcome of a successful `sm.tsa.statespace.SARIMAX(...).fit()`:
the reported AIC, and the predicted value of the fitted model at each integer
position (positions `≥ nobs` are out-of-sample forecast steps). -/
structure FitResult where
  aic : ℚ
  forecast : Nat → ℚ

/-- The external fit oracle: training slice, `order`, `seasonal_order`,
`enforce_stationarity`, `enforce_invertibility` ↦ exception or fit result. -/
def Fitter (ε : Type) : Type :=
  List (Int × ℚ) → (Nat × Nat × Nat) → (Nat × Nat × Nat × Nat) →
    Bool → Bool → Except ε FitResult

/-- Statsmodels `results.predict(s, e)` on a date-indexed model: the predicted values at
positions `s` through `e` **inclusive**; an out-of-sample position `j ≥ nobs`
is stamped `lastTrainTs + (j - nobs + 1) * freq`, continuing the training
index past its last timestamp at the inferred frequency. -/
def predictSeries (results : FitResult) (nobs : Nat) (lastTrainTs freq : Int)
    (s e : Nat) : List (Int × ℚ) :=
  (List.range (e + 1 - s)).map fun k =>
    (lastTrainTs + (((s + k : Nat) : Int) - (nobs : Int) + 1) * freq,
     results.forecast (s + k))

/-- Look up the value at timestamp `t` in a series fragment. -/
def lookupTs (t : Int) (l : List (Int × ℚ)) : Option ℚ :=
  (l.find? fun e => e.1 == t).map Prod.snd

/-- Pandas `((prediction - actual) ** 2).sum()`: the subtraction aligns the two series on
their timestamps; timestamps present in only one side give missing values,
which `.sum()` skips, so only timestamps present in both contribute their
squared difference. -/
def alignedSqErrSum (pred actual : List (Int × ℚ)) : ℚ :=
  (pred.filterMap fun pv =>
    (lookupTs pv.1 actual).map fun av =>
      (pv.2 - av) * (pv.2 - av)).foldl (· + ·) 0

/-- Python `range(0, 2)`. -/
def pdqRange : List Nat := List.range 2

/-- The grid `pdq = list(itertools.product(p, d, q))` with `p = d = q = range(0, 2)`:
the rightmost component varies fastest. -/
def pdq : List (Nat × Nat × Nat) :=
  pdqRange.flatMap fun p =>
    pdqRange.flatMap fun d => pdqRange.map fun q => (p, d, q)

/-- The grid `seasonal_pdq = [(x[0], x[1], x[2], 12) for x in list(itertools.product(p, d, q))]`. -/
def seasonal_pdq : List (Nat × Nat × Nat × Nat) :=
  pdq.map fun x => (x.1, x.2.1, x.2.2, 12)

/-- The nested loop `for param in pdq: for param_seasonal in seasonal_pdq:`
visits exactly these pairs in exactly this order. -/
def allCombos : List ((Nat × Nat × Nat) × (Nat × Nat × Nat × Nat)) :=
  pdq.flatMap fun param => seasonal_pdq.map fun ps => (param, ps)

/-- The cutoff `train_date = data.index.max() - (train_delta * data.index.freq)`. -/
def trainDate (data : TimeSeries) (train_delta : Nat) : Int :=
  indexMax data - (train_delta : Int) * data.freq

/-- The slice `data.loc[start_train:train_date]`: the endog handed to every SARIMAX fit. -/
def trainSlice (data : TimeSeries) (train_delta : Nat)
    (start_train : Option Int) : List (Int × ℚ) :=
  locSlice data start_train (trainDate data train_delta)

/-- The forecast `prediction = results.predict(results.nobs, results.nobs + train_delta)`:
`results.nobs` is the length of the training slice, and the last timestamp of
that slice anchors the out-of-sample date stamps. -/
def comboPrediction (results : FitResult) (data : TimeSeries)
    (train_delta : Nat) (start_train : Option Int) : List (Int × ℚ) :=
  let ts := trainSlice data train_delta start_train
  predictSeries results ts.length (((ts.map Prod.fst).getLast?).getD 0)
    data.freq ts.length (ts.length + train_delta)

/-- The actuals `actual = data[-train_delta:]`. -/
def comboActual (data : TimeSeries) (train_delta : Nat) : List (Int × ℚ) :=
  pythonTail train_delta data.entries

/-- The score `mse = ((prediction - actual) ** 2).sum()` — despite the variable name,
this is the aligned **sum** of squared differences, not their mean. -/
def comboMse (results : FitResult) (data : TimeSeries) (train_delta : Nat)
    (start_train : Option Int) : ℚ :=
  alignedSqErrSum (comboPrediction results data train_delta start_train)
    (comboActual data train_delta)

/-- One row appended to `test_results`: the result string is modelled by its
identifying content, the `(param, param_seasonal)` pair it displays, and the
`aic` and `mse` columns hold the scores. -/
structure Row where
  key : (Nat × Nat × Nat) × (Nat × Nat × Nat × Nat)
  aic : ℚ
  mse : ℚ
deriving DecidableEq, Repr

/-- The body of the `try:` block for one `(param, param_seasonal)` pair:
build and fit the model on `data.loc[start_train:train_date]` with both
enforcement flags `False`, predict `nobs .. nobs + train_delta`, slice the
actuals, score, and produce the row — or propagate the exception of the fit. -/
def attemptCombo {ε : Type} (fit : Fitter ε) (data : TimeSeries)
    (train_delta : Nat) (start_train : Option Int)
    (param : Nat × Nat × Nat) (param_seasonal : Nat × Nat × Nat × Nat) :
    Except ε Row :=
  match fit (trainSlice data train_delta start_train) param param_seasonal
      false false with
  | Except.error e => Except.error e
  | Except.ok results =>
      Except.ok
        ⟨(param, param_seasonal), results.aic,
         comboMse results data train_delta start_train⟩

/-- The relation `sort_values` orders by: comparison of a numeric column. -/
def keyLe (key : Row → ℚ) (a b : Row) : Prop := key a ≤ key b

instance (key : Row → ℚ) : DecidableRel (keyLe key) := fun a b =>
  inferInstanceAs (Decidable (key a ≤ key b))

instance (key : Row → ℚ) : IsTotal Row (keyLe key) :=
  ⟨fun a b => le_total (key a) (key b)⟩

instance (key : Row → ℚ) : IsTrans Row (keyLe key) :=
  ⟨fun _ _ _ hab hbc => le_trans hab hbc⟩

/-- A deterministic model of pandas `results_df.sort_values(column)`: an
insertion sort by the chosen numeric column. The library call with its
default quicksort kind guarantees only a permutation of the table that is
non-decreasing in that column — the contract `SortValuesSpec` below — and is
documented as **not** stable, so any tie-order behaviour of this concrete
model is not a property of the program; a program-level statement about the
sorted views must hold for every output admitted by `SortValuesSpec`. -/
def sort_values (key : Row → ℚ) (l : List Row) : List Row :=
  List.insertionSort (keyLe key) l

/-- Everything pandas `sort_values(column)` with the default quicksort kind
promises about its output: it is a permutation of the input table and it is
non-decreasing in the chosen column. Tie order is left unspecified. -/
def SortValuesSpec (key : Row → ℚ) (l sorted : List Row) : Prop :=
  sorted.Perm l ∧ List.Pairwise (keyLe key) sorted

/-- What `find_optimal_pdq` produces: the returned `results_df` (`rows`,
columns `key`/`aic`/`mse`), the per-failure console log, and the two printed
`head()` summaries (`head()` takes the first five rows). -/
structure SearchOutput (ε : Type) where
  rows : List Row
  log : List (ε × List (Nat × Nat × Nat) × List (Nat × Nat × Nat × Nat))
  minAic : List Row
  minMse : List Row

/-- The search `find_optimal_pdq(data, train_delta, start_train=None)`: brute-force
search over all `(param, param_seasonal)` pairs; successes append a row to
`test_results`, exceptions print the text marker together with `pdq` and
`seasonal_pdq` plus the exception itself (modelled as one log record) and hit
`continue`; finally the table
is built and the five lowest-AIC and five lowest-MSE rows are printed. -/
def find_optimal_pdq {ε : Type} (fit : Fitter ε) (data : TimeSeries)
    (train_delta : Nat) (start_train : Option Int) : SearchOutput ε :=
  let test_results := allCombos.filterMap fun pr =>
    (attemptCombo fit data train_delta start_train pr.1 pr.2).toOption
  let log := allCombos.filterMap fun pr =>
    match attemptCombo fit data train_delta start_train pr.1 pr.2 with
    | Except.error e => some (e, pdq, seasonal_pdq)
    | Except.ok _ => none
  ⟨test_results, log,
   (sort_values Row.aic test_results).take 5,
   (sort_values Row.mse test_results).take 5⟩

/-- The training cutoff of `sarimax_plot`,
`train_date = data.index.max() - pd.DateOffset(months=train_delta)`;
`monthTicks` is the length of one calendar month in ticks, so subtracting the
date offset subtracts `train_delta * monthTicks`. -/
def sarimaxTrainDate (monthTicks : Int) (data : TimeSeries)
    (train_delta : Nat) : Int :=
  indexMax data - (train_delta : Int) * monthTicks

/-- The training slice of `sarimax_plot`, `data.loc[start_date:train_date]`. -/
def sarimaxTrainSlice (monthTicks : Int) (data : TimeSeries)
    (train_delta : Nat) (start_date : Option Int) : List (Int × ℚ) :=
  locSlice data start_date (sarimaxTrainDate monthTicks data train_delta)

/-! ## StationarityChecker: rolling statistics of `test_stationarity` -/

/-- The observations inside the width-`w` window ending at position `i`. -/
def windowSlice (w : Nat) (xs : List ℚ) (i : Nat) : List ℚ :=
  (xs.take (i + 1)).drop (i + 1 - w)

/-- Sum of a list of rationals. -/
def listSum (l : List ℚ) : ℚ := l.foldl (· + ·) 0

/-- Arithmetic mean of a window. -/
def listMean (l : List ℚ) : ℚ := listSum l / (l.length : ℚ)

/-- Sample variance with the pandas default `ddof = 1`. Only used on windows of
length at least two; on a single observation pandas yields `0/0 = NaN`. -/
def sampleVar (l : List ℚ) : ℚ :=
  listSum (l.map fun x => (x - listMean l) * (x - listMean l))
    / ((l.length : ℚ) - 1)

/-- Pandas `timeseries.rolling(window=w).mean()`: position `i` (0-based) holds the
mean of the trailing `w` observations once `i + 1 ≥ w` (with `min_periods`
defaulting to the window size), and is missing before that. -/
def rollingMean (w : Nat) (xs : List ℚ) : List (Option ℚ) :=
  (List.range xs.length).map fun i =>
    if w ≤ i + 1 then some (listMean (windowSlice w xs i)) else none

/-- Pandas `timeseries.rolling(window=w).std()`, recorded by its square, the
`ddof = 1` rolling variance: the square root does not change which entries
are present, and the variance determines the std value. A full window of
size `w ≥ 2` yields a value; a size-1 window divides by `ddof`-corrected
count `0`, which pandas reports as `NaN` (missing); shorter windows are
missing by `min_periods`. -/
def rollingStdSq (w : Nat) (xs : List ℚ) : List (Option ℚ) :=
  (List.range xs.length).map fun i =>
    if w ≤ i + 1 then
      if 2 ≤ w then some (sampleVar (windowSlice w xs i)) else none
    else none

/-- Number of non-missing entries of a rolling statistic. -/
def countNonMissing (l : List (Option ℚ)) : Nat := l.countP Option.isSome

/-! Specification-side definition, for comparison with the score in the code -/

/-- Modelled from the spec: "the mean of the squared differences between
the predicted values and those tail observations" — the aligned sum of
squared differences divided by the number of tail observations. -/
def specMeanSqErr (pred actual : List (Int × ℚ)) : ℚ :=
  alignedSqErrSum pred actual / (actual.length : ℚ)

/-! Concrete fixtures used to instantiate the general theorems. -/

/-- A concrete ten-point series at one tick per period: eight observations
equal to `5` followed by two equal to `1`. -/
def dataW : TimeSeries :=
  ⟨[(0, 5), (1, 5), (2, 5), (3, 5), (4, 5), (5, 5), (6, 5), (7, 5),
    (8, 1), (9, 1)], 1⟩

/-- A concrete fit result: AIC zero and a constant-zero forecast. -/
def resW : FitResult := ⟨0, fun _ => 0⟩

/-- An oracle whose fit always succeeds with `resW`. -/
def fitOkW : Fitter Unit := fun _ _ _ _ _ => Except.ok resW

/-- An oracle whose fit always raises. -/
def fitFailW : Fitter Unit := fun _ _ _ _ _ => Except.error ()

/-! Shared lemmas about the search loop. -/

/-- The converse view of `Except.toOption`. -/
lemma toOption_eq_some {ε α : Type} (x : Except ε α) (a : α) :
    x.toOption = some a ↔ x = Except.ok a := by
  cases x <;> simp [Except.toOption]

/-- A successful attempt records exactly the attempted pair in `key`. -/
lemma attemptCombo_ok_key {ε : Type} (fit : Fitter ε) (data : TimeSeries)
    (train_delta : Nat) (start_train : Option Int)
    (p : Nat × Nat × Nat) (s : Nat × Nat × Nat × Nat) (r : Row)
    (h : attemptCombo fit data train_delta start_train p s = Except.ok r) :
    r.key = (p, s) := by
  unfold attemptCombo at h
  cases hf : fit (trainSlice data train_delta start_train) p s false false with
  | error e => rw [hf] at h; exact Except.noConfusion h
  | ok results => rw [hf] at h; cases h; rfl

/-- The returned table is the `filterMap` of the attempts over `allCombos`. -/
lemma rows_eq_filterMap {ε : Type} (fit : Fitter ε) (data : TimeSeries)
    (train_delta : Nat) (start_train : Option Int) :
    (find_optimal_pdq fit data train_delta start_train).rows
      = allCombos.filterMap fun pr =>
          (attemptCombo fit data train_delta start_train pr.1 pr.2).toOption :=
  rfl

/-- The console log is the `filterMap` of the failing attempts. -/
lemma log_eq_filterMap {ε : Type} (fit : Fitter ε) (data : TimeSeries)
    (train_delta : Nat) (start_train : Option Int) :
    (find_optimal_pdq fit data train_delta start_train).log
      = allCombos.filterMap fun pr =>
          match attemptCombo fit data train_delta start_train pr.1 pr.2 with
          | Except.error e => some (e, pdq, seasonal_pdq)
          | Except.ok _ => none :=
  rfl

/-- In a duplicate-free list, a member occurs exactly once. -/
lemma length_filter_eq_one {α : Type} [DecidableEq α] (a : α) (l : List α)
    (hnd : l.Nodup) (ha : a ∈ l) :
    (l.filter fun x => decide (x = a)).length = 1 := by
  induction l with
  | nil => cases ha
  | cons x xs ih =>
      have hnd2 := List.nodup_cons.mp hnd
      rw [List.filter_cons]
      rcases List.mem_cons.mp ha with h | h
      · subst h
        rw [if_pos (by simp)]
        have hz : xs.filter (fun y => decide (y = a)) = [] :=
          List.filter_eq_nil_iff.mpr fun b hb => by
            simp only [decide_eq_true_eq]
            exact fun hba => hnd2.1 (hba ▸ hb)
        rw [hz]
        rfl
      · have hxa : ¬(x = a) := fun hx => hnd2.1 (hx ▸ h)
        rw [if_neg (by simp [hxa])]
        exact ih hnd2.2 h

/-- Any successful attempt contributes its row to the returned table. -/
lemma mem_rows_of_ok {ε : Type} (fit : Fitter ε) (data : TimeSeries)
    (train_delta : Nat) (start_train : Option Int)
    (p : Nat × Nat × Nat) (s : Nat × Nat × Nat × Nat) (r : Row)
    (hmem : (p, s) ∈ allCombos)
    (h : attemptCombo fit data train_delta start_train p s = Except.ok r) :
    r ∈ (find_optimal_pdq fit data train_delta start_train).rows := by
  rw [rows_eq_filterMap]
  exact List.mem_filterMap.mpr
    ⟨(p, s), hmem, by rw [show ((p, s).1 : Nat × Nat × Nat) = p from rfl];
                      rw [show ((p, s).2 : Nat × Nat × Nat × Nat) = s from rfl, h]; rfl⟩

/-- Every row of the returned table comes from a successful attempt at the
pair recorded in its `key`. -/
lemma ok_of_mem_rows {ε : Type} (fit : Fitter ε) (data : TimeSeries)
    (train_delta : Nat) (start_train : Option Int) (r : Row)
    (h : r ∈ (find_optimal_pdq fit data train_delta start_train).rows) :
    r.key ∈ allCombos ∧
      attemptCombo fit data train_delta start_train r.key.1 r.key.2
        = Except.ok r := by
  rw [rows_eq_filterMap] at h
  obtain ⟨pr, hpr, hsome⟩ := List.mem_filterMap.mp h
  have hok := (toOption_eq_some _ _).mp hsome
  have hkey := attemptCombo_ok_key fit data train_delta start_train pr.1 pr.2 r hok
  have : r.key = pr := by rw [hkey]
  rw [this]
  exact ⟨hpr, hok⟩

/-- Membership in the enumerated pair list splits componentwise. -/
lemma mem_allCombos (p : Nat × Nat × Nat) (s : Nat × Nat × Nat × Nat) :
    (p, s) ∈ allCombos ↔ p ∈ pdq ∧ s ∈ seasonal_pdq := by
  unfold allCombos
  constructor
  · intro h
    obtain ⟨a, ha, hmem⟩ := List.mem_flatMap.mp h
    obtain ⟨b, hb, hab⟩ := List.mem_map.mp hmem
    obtain ⟨h1, h2⟩ := Prod.mk.injEq .. ▸ hab
    exact ⟨h1 ▸ ha, h2 ▸ hb⟩
  · intro ⟨hp, hs⟩
    exact List.mem_flatMap.mpr ⟨p, hp, List.mem_map.mpr ⟨s, hs, rfl⟩⟩

/-! Shared lemmas about the sorted views. -/

/-- Everything in the first `n` rows of a sorted view is bounded by
everything after them. -/
lemma sort_values_take_drop (key : Row → ℚ) (l : List Row) (n : Nat) :
    ∀ x ∈ (sort_values key l).take n, ∀ y ∈ (sort_values key l).drop n,
      key x ≤ key y := by
  have hs : List.Pairwise (keyLe key)
      ((sort_values key l).take n ++ (sort_values key l).drop n) := by
    rw [List.take_append_drop]
    exact List.sorted_insertionSort (keyLe key) l
  exact (List.pairwise_append.mp hs).2.2

/-- A `filterMap` that acts as a guard is a `filter`. -/
lemma filterMap_eq_filter_of {α : Type} (l : List α) (f : α → Option α)
    (p : α → Bool) (h : ∀ a ∈ l, f a = if p a then some a else none) :
    l.filterMap f = l.filter p := by
  induction l with
  | nil => rfl
  | cons x xs ih =>
      rw [List.filterMap_cons, List.filter_cons,
        h x (List.mem_cons_self x xs),
        ih fun a ha => h a (List.mem_cons_of_mem x ha)]
      by_cases hp : p x <;> simp [hp]

/-! Shared lemmas about rolling statistics. -/

/-- How many positions of `range n` lie in a full width-`w` window. -/
lemma countP_range_window (w n : Nat) (hw : 0 < w) (hn : w ≤ n) :
    (List.range n).countP (fun i => decide (w ≤ i + 1)) = n - w + 1 := by
  induction n with
  | zero => omega
  | succ m ih =>
      rw [List.range_succ, List.countP_append]
      by_cases h : w ≤ m
      · rw [ih h]
        have hle : w ≤ m + 1 := Nat.le_succ_of_le h
        simp [List.countP_cons, hle]
        omega
      · have hw1 : w = m + 1 := by omega
        have hz : (List.range m).countP (fun i => decide (w ≤ i + 1)) = 0 := by
          apply List.countP_eq_zero.mpr
          intro a ha
          have := List.mem_range.mp ha
          simp only [decide_eq_true_eq]
          omega
        rw [hz]
        simp [List.countP_cons, hw1]

/-- The rolling mean over a full window has one value per complete window. -/
lemma countNonMissing_rollingMean (w : Nat) (xs : List ℚ)
    (hw : 0 < w) (hn : w ≤ xs.length) :
    countNonMissing (rollingMean w xs) = xs.length - w + 1 := by
  unfold countNonMissing rollingMean
  rw [List.countP_map]
  have hfun : (Option.isSome ∘ fun i =>
      if w ≤ i + 1 then some (listMean (windowSlice w xs i)) else none)
      = fun i => decide (w ≤ i + 1) := by
    funext i
    by_cases h : w ≤ i + 1 <;> simp [Function.comp, h]
  rw [hfun, countP_range_window w xs.length hw hn]

/-- For windows of width at least two the rolling std behaves likewise. -/
lemma countNonMissing_rollingStdSq (w : Nat) (xs : List ℚ)
    (hw : 2 ≤ w) (hn : w ≤ xs.length) :
    countNonMissing (rollingStdSq w xs) = xs.length - w + 1 := by
  unfold countNonMissing rollingStdSq
  rw [List.countP_map]
  have hfun : (Option.isSome ∘ fun i =>
      if w ≤ i + 1 then
        if 2 ≤ w then some (sampleVar (windowSlice w xs i)) else none
      else none)
      = fun i => decide (w ≤ i + 1) := by
    funext i
    by_cases h : w ≤ i + 1 <;> simp [Function.comp, h, hw]
  rw [hfun, countP_range_window w xs.length (by omega) hn]

/-- For a width-one window the `ddof = 1` rolling std is entirely missing. -/
lemma countNonMissing_rollingStdSq_one (xs : List ℚ) :
    countNonMissing (rollingStdSq 1 xs) = 0 := by
  unfold countNonMissing rollingStdSq
  rw [List.countP_map]
  apply List.countP_eq_zero.mpr
  intro a _
  simp [Function.comp]

/-! The claims. -/

/-- Claim C2 (confirmed): the non-seasonal space is exactly the Cartesian
product of `{0,1}` for `(p,d,q)` (8 tuples), the seasonal space is those same
8 tuples with the fixed period `12` appended, all `8 × 8 = 64` pairs are
enumerated, the returned table has at most `64` rows, and it has a row for
every combination whose attempt does not raise. -/
theorem orderSearch_enumeration_space {ε : Type} (fit : Fitter ε)
    (data : TimeSeries) (train_delta : Nat) (start_train : Option Int) :
    pdq = [(0, 0, 0), (0, 0, 1), (0, 1, 0), (0, 1, 1),
           (1, 0, 0), (1, 0, 1), (1, 1, 0), (1, 1, 1)] ∧
    seasonal_pdq = pdq.map (fun x => (x.1, x.2.1, x.2.2, 12)) ∧
    allCombos.length = 64 ∧
    (∀ p ∈ pdq, ∀ s ∈ seasonal_pdq, (p, s) ∈ allCombos) ∧
    (find_optimal_pdq fit data train_delta start_train).rows.length ≤ 64 ∧
    (∀ p s r, (p, s) ∈ allCombos →
      attemptCombo fit data train_delta start_train p s = Except.ok r →
      ∃ row ∈ (find_optimal_pdq fit data train_delta start_train).rows,
        row.key = (p, s)) := by
  refine ⟨by decide, by decide, by decide, by decide, ?_, ?_⟩
  · rw [rows_eq_filterMap]
    exact le_trans (List.length_filterMap_le _ _) (by decide)
  · intro p s r hmem hok
    exact ⟨r, mem_rows_of_ok fit data train_delta start_train p s r hmem hok,
      attemptCombo_ok_key fit data train_delta start_train p s r hok⟩

/-- Witness for C2 at the constant oracle on the concrete series. -/
theorem orderSearch_enumeration_space_witness :
    ∃ row ∈ (find_optimal_pdq fitOkW dataW 2 none).rows,
      row.key = ((0, 0, 0), (0, 0, 0, 12)) :=
  (orderSearch_enumeration_space fitOkW dataW 2 none).2.2.2.2.2
    (0, 0, 0) (0, 0, 0, 12)
    ⟨((0, 0, 0), (0, 0, 0, 12)), resW.aic, comboMse resW dataW 2 none⟩
    (by decide) rfl

/-- Claim C3 (confirmed): when every per-combination fit raises, the function
still returns (the embedding is a total function) and the returned table is
empty — zero `Row`s, the columns being the `Row` fields `key`, `aic`, `mse`;
no exception escapes the loop. -/
theorem orderSearch_all_fail_empty {ε : Type} (fit : Fitter ε)
    (data : TimeSeries) (train_delta : Nat) (start_train : Option Int)
    (hfail : ∀ endog p s, ∃ e, fit endog p s false false = Except.error e) :
    (find_optimal_pdq fit data train_delta start_train).rows = [] := by
  rw [rows_eq_filterMap]
  apply List.filterMap_eq_nil_iff.mpr
  intro pr _
  obtain ⟨e, he⟩ := hfail (trainSlice data train_delta start_train) pr.1 pr.2
  unfold attemptCombo
  rw [he]
  rfl

/-- Witness for C3 at the always-raising oracle. -/
theorem orderSearch_all_fail_empty_witness :
    (find_optimal_pdq fitFailW dataW 2 none).rows = [] :=
  orderSearch_all_fail_empty fitFailW dataW 2 none fun _ _ _ => ⟨(), rfl⟩

/-- Claim C5 (confirmed): the training cutoff is `max(index)` minus
`train_delta` frequency steps, every fit receives the slice of the series
from `start_train` (or the beginning) through that cutoff with both
enforcement flags `false`, and the whole search output depends on the fit
oracle only through its values at exactly those arguments. -/
theorem orderSearch_training_slice_and_flags {ε : Type}
    (fit fit2 : Fitter ε) (data : TimeSeries) (train_delta : Nat)
    (start_train : Option Int)
    (hagree : ∀ p s,
      fit (trainSlice data train_delta start_train) p s false false
        = fit2 (trainSlice data train_delta start_train) p s false false) :
    trainDate data train_delta
        = indexMax data - (train_delta : Int) * data.freq ∧
    trainSlice data train_delta start_train
        = locSlice data start_train (trainDate data train_delta) ∧
    find_optimal_pdq fit data train_delta start_train
        = find_optimal_pdq fit2 data train_delta start_train := by
  have hatt : ∀ pr : (Nat × Nat × Nat) × (Nat × Nat × Nat × Nat),
      attemptCombo fit data train_delta start_train pr.1 pr.2
        = attemptCombo fit2 data train_delta start_train pr.1 pr.2 := by
    intro pr
    unfold attemptCombo
    rw [hagree pr.1 pr.2]
  refine ⟨rfl, rfl, ?_⟩
  unfold find_optimal_pdq
  simp only [hatt]

/-- Witness for C5: two identical oracles agree, so do the outputs. -/
theorem orderSearch_training_slice_and_flags_witness :
    trainDate dataW 2 = indexMax dataW - ((2 : Nat) : Int) * dataW.freq ∧
    trainSlice dataW 2 none = locSlice dataW none (trainDate dataW 2) ∧
    find_optimal_pdq fitOkW dataW 2 none = find_optimal_pdq fitOkW dataW 2 none :=
  orderSearch_training_slice_and_flags fitOkW fitOkW dataW 2 none fun _ _ => rfl

/-- Claim C7 (confirmed): when the fit of a combination raises, the search
logs one record holding the exception together with the full `pdq` and
`seasonal_pdq` candidate lists (which contain the offending tuples), records
no row for that combination, attempts it exactly once (no retry), and every
other successful combination still contributes its row to the table. -/
theorem orderSearch_failure_logged_skipped {ε : Type} (fit : Fitter ε)
    (data : TimeSeries) (train_delta : Nat) (start_train : Option Int)
    (p : Nat × Nat × Nat) (s : Nat × Nat × Nat × Nat) (e : ε)
    (hmem : (p, s) ∈ allCombos)
    (hfail : fit (trainSlice data train_delta start_train) p s false false
      = Except.error e) :
    (e, pdq, seasonal_pdq)
        ∈ (find_optimal_pdq fit data train_delta start_train).log ∧
    p ∈ pdq ∧ s ∈ seasonal_pdq ∧
    (∀ row ∈ (find_optimal_pdq fit data train_delta start_train).rows,
      row.key ≠ (p, s)) ∧
    (allCombos.filter fun pr => decide (pr = (p, s))).length = 1 ∧
    (∀ p2 s2 r2, (p2, s2) ∈ allCombos →
      attemptCombo fit data train_delta start_train p2 s2 = Except.ok r2 →
      r2 ∈ (find_optimal_pdq fit data train_delta start_train).rows) := by
  have hatt : attemptCombo fit data train_delta start_train p s
      = Except.error e := by
    unfold attemptCombo
    rw [hfail]
  refine ⟨?_, ((mem_allCombos p s).mp hmem).1, ((mem_allCombos p s).mp hmem).2,
    ?_, length_filter_eq_one (p, s) allCombos (by decide) hmem, ?_⟩
  · rw [log_eq_filterMap]
    refine List.mem_filterMap.mpr ⟨(p, s), hmem, ?_⟩
    dsimp only
    rw [hatt]
  · intro row hrow hkey
    have hok := ok_of_mem_rows fit data train_delta start_train row hrow
    rw [hkey] at hok
    rw [hatt] at hok
    exact Except.noConfusion hok.2
  · intro p2 s2 r2 h1 h2
    exact mem_rows_of_ok fit data train_delta start_train p2 s2 r2 h1 h2

/-- Witness for C7 at the always-raising oracle. -/
theorem orderSearch_failure_logged_skipped_witness :
    ((), pdq, seasonal_pdq) ∈ (find_optimal_pdq fitFailW dataW 2 none).log ∧
    (0, 0, 0) ∈ pdq ∧ (0, 0, 0, 12) ∈ seasonal_pdq ∧
    (∀ row ∈ (find_optimal_pdq fitFailW dataW 2 none).rows,
      row.key ≠ ((0, 0, 0), (0, 0, 0, 12))) ∧
    (allCombos.filter fun pr =>
      decide (pr = ((0, 0, 0), (0, 0, 0, 12)))).length = 1 ∧
    (∀ p2 s2 r2, (p2, s2) ∈ allCombos →
      attemptCombo fitFailW dataW 2 none p2 s2 = Except.ok r2 →
      r2 ∈ (find_optimal_pdq fitFailW dataW 2 none).rows) :=
  orderSearch_failure_logged_skipped fitFailW dataW 2 none
    (0, 0, 0) (0, 0, 0, 12) () (by decide) rfl

/-- Claim C1 is false as stated: with the constant-zero oracle on `dataW` and
`train_delta = 2`, the recorded score of the successful all-zero combination
is `2` — the aligned sum of squared differences — while the mean of the
squared differences between the forecast and the two tail observations
is `1 ≠ 2`. -/
theorem orderSearch_score_counterexample :
    (∃ row ∈ (find_optimal_pdq fitOkW dataW 2 none).rows,
      row.key = ((0, 0, 0), (0, 0, 0, 12)) ∧ row.mse = 2) ∧
    specMeanSqErr (comboPrediction resW dataW 2 none) (comboActual dataW 2)
      = 1 ∧
    ¬((2 : ℚ) = 1) := by
  refine ⟨⟨⟨((0, 0, 0), (0, 0, 0, 12)), resW.aic, comboMse resW dataW 2 none⟩,
    mem_rows_of_ok fitOkW dataW 2 none (0, 0, 0) (0, 0, 0, 12) _
      (by decide) rfl, rfl, ?_⟩, ?_, by norm_num⟩
  · show comboMse resW dataW 2 none = 2
    show (0 + ((0 : ℚ) - 1) * ((0 : ℚ) - 1)) + ((0 : ℚ) - 1) * ((0 : ℚ) - 1) = 2
    norm_num
  · show ((0 + ((0 : ℚ) - 1) * ((0 : ℚ) - 1)) + ((0 : ℚ) - 1) * ((0 : ℚ) - 1))
      / ((2 : Nat) : ℚ) = 1
    norm_num

/-- Claim C1 (amended): for every parameter combination whose fit succeeds,
the recorded score is the SUM of the squared differences between the
forecast and the index-aligned entries of the last `train_delta` actual
observations — the sum, not the mean. -/
theorem orderSearch_score_is_sq_err_sum {ε : Type} (fit : Fitter ε)
    (data : TimeSeries) (train_delta : Nat) (start_train : Option Int)
    (p : Nat × Nat × Nat) (s : Nat × Nat × Nat × Nat) (res : FitResult)
    (hmem : (p, s) ∈ allCombos)
    (hok : fit (trainSlice data train_delta start_train) p s false false
      = Except.ok res) :
    (⟨(p, s), res.aic,
        alignedSqErrSum (comboPrediction res data train_delta start_train)
          (comboActual data train_delta)⟩ : Row)
      ∈ (find_optimal_pdq fit data train_delta start_train).rows := by
  apply mem_rows_of_ok fit data train_delta start_train p s _ hmem
  unfold attemptCombo
  rw [hok]
  rfl

/-- Witness for the amended C1 at the constant oracle. -/
theorem orderSearch_score_is_sq_err_sum_witness :
    (⟨((0, 0, 0), (0, 0, 0, 12)), resW.aic,
        alignedSqErrSum (comboPrediction resW dataW 2 none)
          (comboActual dataW 2)⟩ : Row)
      ∈ (find_optimal_pdq fitOkW dataW 2 none).rows :=
  orderSearch_score_is_sq_err_sum fitOkW dataW 2 none
    (0, 0, 0) (0, 0, 0, 12) resW (by decide) rfl

/-- Claim C4 is false as stated: its scoring forecast would have
`train_delta` values, but with `train_delta = 2` the prediction list has
`3 = train_delta + 1` values, because `predict(nobs, nobs + train_delta)`
includes both endpoint positions. -/
theorem orderSearch_forecast_length_counterexample :
    (comboPrediction resW dataW 2 none).length = 2 + 1 ∧
    ¬((comboPrediction resW dataW 2 none).length = 2) := by decide

/-- Claim C4 (amended): the scoring forecast starts one frequency step after
the last training timestamp and holds exactly `train_delta + 1` values —
positions `nobs` through `nobs + train_delta` inclusive — and the score
compares it against the last `train_delta` actual observations of the full
input series. -/
theorem orderSearch_forecast_shape (res : FitResult) (data : TimeSeries)
    (train_delta : Nat) (start_train : Option Int) :
    comboPrediction res data train_delta start_train
      = (List.range (train_delta + 1)).map (fun (k : Nat) =>
          ((((trainSlice data train_delta start_train).map
                Prod.fst).getLast?.getD 0) + ((k : Int) + 1) * data.freq,
           res.forecast
             ((trainSlice data train_delta start_train).length + k))) ∧
    (comboPrediction res data train_delta start_train).length
      = train_delta + 1 ∧
    comboMse res data train_delta start_train
      = alignedSqErrSum (comboPrediction res data train_delta start_train)
          (pythonTail train_delta data.entries) := by
  have h1 : comboPrediction res data train_delta start_train
      = (List.range (train_delta + 1)).map (fun (k : Nat) =>
          ((((trainSlice data train_delta start_train).map
                Prod.fst).getLast?.getD 0) + ((k : Int) + 1) * data.freq,
           res.forecast
             ((trainSlice data train_delta start_train).length + k))) := by
    simp only [comboPrediction, predictSeries]
    have hr : (trainSlice data train_delta start_train).length + train_delta
        + 1 - (trainSlice data train_delta start_train).length
        = train_delta + 1 := by omega
    rw [hr]
    apply List.map_congr_left
    intro k _
    apply Prod.ext
    · dsimp only
      push_cast
      ring
    · rfl
  refine ⟨h1, ?_, rfl⟩
  rw [h1]
  simp

/-- Claim C6 is false as stated: on a series whose inferred frequency step is
a single tick (for instance daily data with a 30-day month), the
`find_optimal_pdq` cutoff and the `sarimax_plot` cutoff differ. -/
theorem cutoff_mismatch_counterexample :
    trainDate dataW 1 = 8 ∧ sarimaxTrainDate 30 dataW 1 = -21 ∧
    ¬(sarimaxTrainDate 30 dataW 1 = trainDate dataW 1) := by decide

/-- Claim C6 (amended): `sarimax_plot` subtracts `train_delta` calendar
months where `find_optimal_pdq` subtracts `train_delta` frequency steps, so
the two training cutoffs — and hence the training slices — coincide exactly
when the inferred frequency step of the series is one calendar month. -/
theorem cutoff_agreement_monthly (monthTicks : Int) (data : TimeSeries)
    (train_delta : Nat) (start : Option Int)
    (hfreq : data.freq = monthTicks) :
    sarimaxTrainDate monthTicks data train_delta = trainDate data train_delta ∧
    sarimaxTrainSlice monthTicks data train_delta start
      = trainSlice data train_delta start := by
  unfold sarimaxTrainSlice trainSlice sarimaxTrainDate trainDate
  rw [hfreq]
  exact ⟨rfl, rfl⟩

/-- Witness for the amended C6 on the concrete series with a one-tick month. -/
theorem cutoff_agreement_monthly_witness :
    sarimaxTrainDate 1 dataW 2 = trainDate dataW 2 ∧
    sarimaxTrainSlice 1 dataW 2 none = trainSlice dataW 2 none :=
  cutoff_agreement_monthly 1 dataW 2 none rfl

/-- Claim C8 (confirmed): the AIC-ascending and MSE-ascending sorts of the
returned table are non-decreasing in their respective columns, and the two
printed summaries are exactly the first five rows of those sorts — the five
lowest-AIC and five lowest-MSE rows, each bounded by every remaining row. -/
theorem orderSearch_sorted_views {ε : Type} (fit : Fitter ε)
    (data : TimeSeries) (train_delta : Nat) (start_train : Option Int) :
    List.Pairwise (fun a b : Row => a.aic ≤ b.aic)
      (sort_values Row.aic
        (find_optimal_pdq fit data train_delta start_train).rows) ∧
    List.Pairwise (fun a b : Row => a.mse ≤ b.mse)
      (sort_values Row.mse
        (find_optimal_pdq fit data train_delta start_train).rows) ∧
    (find_optimal_pdq fit data train_delta start_train).minAic
      = (sort_values Row.aic
          (find_optimal_pdq fit data train_delta start_train).rows).take 5 ∧
    (find_optimal_pdq fit data train_delta start_train).minMse
      = (sort_values Row.mse
          (find_optimal_pdq fit data train_delta start_train).rows).take 5 ∧
    (∀ x ∈ (find_optimal_pdq fit data train_delta start_train).minAic,
      ∀ y ∈ (sort_values Row.aic
          (find_optimal_pdq fit data train_delta start_train).rows).drop 5,
        x.aic ≤ y.aic) ∧
    (∀ x ∈ (find_optimal_pdq fit data train_delta start_train).minMse,
      ∀ y ∈ (sort_values Row.mse
          (find_optimal_pdq fit data train_delta start_train).rows).drop 5,
        x.mse ≤ y.mse) :=
  ⟨List.sorted_insertionSort (keyLe Row.aic) _,
   List.sorted_insertionSort (keyLe Row.mse) _,
   rfl, rfl,
   sort_values_take_drop Row.aic _ 5,
   sort_values_take_drop Row.mse _ 5⟩

/-- Witness for C8: a summary row against a remaining row of the sort. -/
theorem orderSearch_sorted_views_witness :
    (⟨((0, 0, 0), (0, 0, 0, 12)), resW.aic, comboMse resW dataW 0 none⟩
        : Row).aic
      ≤ (⟨((1, 1, 1), (1, 1, 1, 12)), resW.aic, comboMse resW dataW 0 none⟩
        : Row).aic :=
  (orderSearch_sorted_views fitOkW dataW 0 none).2.2.2.2.1
    ⟨((0, 0, 0), (0, 0, 0, 12)), resW.aic, comboMse resW dataW 0 none⟩
    (by decide)
    ⟨((1, 1, 1), (1, 1, 1, 12)), resW.aic, comboMse resW dataW 0 none⟩
    (by decide)

/-- Claim C9 is false as stated: over window `1` on the length-3 series
`[1, 2, 3]` the rolling mean indeed has `3 = n − w + 1` non-missing values,
but the rolling std (pandas default `ddof = 1`) has none at all. -/
theorem rolling_window_one_counterexample :
    countNonMissing (rollingMean 1 [1, 2, 3]) = 3 ∧
    countNonMissing (rollingStdSq 1 [1, 2, 3]) = 0 ∧
    ¬(countNonMissing (rollingStdSq 1 [1, 2, 3]) = 3 - 1 + 1) := by decide

/-- Claim C9 (amended): over window `w` on a series of length `n` with
`0 < w ≤ n`, the rolling mean has exactly `n − w + 1` non-missing values;
the rolling std has `n − w + 1` non-missing values whenever `2 ≤ w`, but for
`w = 1` every entry is missing, because the `ddof = 1` standard deviation of
a single observation is `NaN`. -/
theorem rolling_stats_nonmissing (w : Nat) (xs : List ℚ)
    (hw : 0 < w) (hn : w ≤ xs.length) :
    countNonMissing (rollingMean w xs) = xs.length - w + 1 ∧
    (2 ≤ w → countNonMissing (rollingStdSq w xs) = xs.length - w + 1) ∧
    (w = 1 → countNonMissing (rollingStdSq w xs) = 0) :=
  ⟨countNonMissing_rollingMean w xs hw hn,
   fun h2 => countNonMissing_rollingStdSq w xs h2 hn,
   fun h1 => h1 ▸ countNonMissing_rollingStdSq_one xs⟩

/-- Witness for the amended C9 on a sine-free synthetic series. -/
theorem rolling_stats_nonmissing_witness :
    countNonMissing (rollingMean 2 [1, 2, 3]) = 3 - 2 + 1 ∧
    (2 ≤ 2 → countNonMissing (rollingStdSq 2 [1, 2, 3]) = 3 - 2 + 1) ∧
    (2 = 1 → countNonMissing (rollingStdSq 2 [1, 2, 3]) = 0) :=
  rolling_stats_nonmissing 2 [1, 2, 3] (by decide) (by decide)

/-- Claim C10 is false in its tie-break clause: the views are produced by
`results_df.sort_values(...)` with the pandas default quicksort kind, which
is documented as not stable, so its contract only promises a sorted
permutation. Concretely, with the constant oracle every row of the returned
table carries the same AIC; the **reverse** of the table is then itself a
compliant output of sorting by AIC, yet its first row is the
last-enumerated combination while the first row of the table is the
first-enumerated one — a compliant sort may order ties against the
enumeration order, so enumeration order does not determine tie order. -/
theorem orderSearch_tiebreak_counterexample :
    SortValuesSpec Row.aic (find_optimal_pdq fitOkW dataW 0 none).rows
      ((find_optimal_pdq fitOkW dataW 0 none).rows.reverse) ∧
    (find_optimal_pdq fitOkW dataW 0 none).rows.head?
      = some ⟨((0, 0, 0), (0, 0, 0, 12)), resW.aic,
          comboMse resW dataW 0 none⟩ ∧
    ((find_optimal_pdq fitOkW dataW 0 none).rows.reverse).head?
      = some ⟨((1, 1, 1), (1, 1, 1, 12)), resW.aic,
          comboMse resW dataW 0 none⟩ ∧
    (⟨((0, 0, 0), (0, 0, 0, 12)), resW.aic, comboMse resW dataW 0 none⟩
        : Row)
      ≠ ⟨((1, 1, 1), (1, 1, 1, 12)), resW.aic, comboMse resW dataW 0 none⟩ :=
  ⟨⟨List.reverse_perm _, by decide⟩, by decide, by decide, by decide⟩

/-- Claim C10 (amended): the rows of the returned table do appear in
enumeration order — the `key` column, read top to bottom, is exactly the
nested enumeration of `allCombos` filtered to the non-raising attempts —
but the sorted views are only guaranteed to satisfy the `sort_values`
contract: each is a permutation of the table that is non-decreasing in its
column, with tie order unspecified, because the pandas default quicksort is
not stable. -/
theorem orderSearch_rows_enumeration_order {ε : Type} (fit : Fitter ε)
    (data : TimeSeries) (train_delta : Nat) (start_train : Option Int) :
    (find_optimal_pdq fit data train_delta start_train).rows.map Row.key
      = allCombos.filter (fun pr =>
          (attemptCombo fit data train_delta start_train
            pr.1 pr.2).toOption.isSome) ∧
    SortValuesSpec Row.aic
      (find_optimal_pdq fit data train_delta start_train).rows
      (sort_values Row.aic
        (find_optimal_pdq fit data train_delta start_train).rows) ∧
    SortValuesSpec Row.mse
      (find_optimal_pdq fit data train_delta start_train).rows
      (sort_values Row.mse
        (find_optimal_pdq fit data train_delta start_train).rows) := by
  refine ⟨?_,
    ⟨List.perm_insertionSort (keyLe Row.aic) _,
     List.sorted_insertionSort (keyLe Row.aic) _⟩,
    ⟨List.perm_insertionSort (keyLe Row.mse) _,
     List.sorted_insertionSort (keyLe Row.mse) _⟩⟩
  rw [rows_eq_filterMap, List.map_filterMap]
  apply filterMap_eq_filter_of
  intro pr _
  cases hatt : attemptCombo fit data train_delta start_train pr.1 pr.2 with
  | error e => simp [Except.toOption, hatt]
  | ok r =>
      have hkey := attemptCombo_ok_key fit data train_delta start_train
        pr.1 pr.2 r hatt
      simp [Except.toOption, hatt, hkey]

end TimeseriesTools
